import Mathlib

/-!
Shallow embedding of the trial-stack composition layer of 4dn-cloud-infra.

The module `src/stacks/trial.py` (here: the trial-stack creators
`c4_stack_trial_network`, `c4_stack_trial_datastore`, `c4_stack_trial_beanstalk`,
`c4_stack_trial_foursight_cgap`, `c4_stack_trial_tibanna`, `stack_trial_ecr`
and their helpers) is embedded directly from the source.  The supporting
modules `src/base.py` (registry, `register_stack_creator`, resolution) and
`src/stack.py` / `src/exports.py` (the `C4Stack` data classes and the export
registry) are not part of the provided sources; the definitions standing in
for them are modelled from the specification and are marked as such in their
doc comments.
-/

/-- Modelled from the spec: `C4Name` (from the missing `src/stack.py`) is an
immutable value holding the derived stack name string; `src/stacks/trial.py`
constructs it as `C4Name(name=...)`, so it is embedded as a record holding
that string. -/
structure C4Name where
  name : String
deriving DecidableEq, BEq, Repr

/-- Modelled from the spec: `C4Tags` (from the missing `src/stack.py`) is an
immutable set of key/value metadata (environment, project, owner) attached to
every stack; `src/stacks/trial.py` constructs it as
`C4Tags(env=..., project=..., owner=...)`. -/
structure C4Tags where
  env : String
  project : String
  owner : String
deriving DecidableEq, BEq, Repr

/-- Modelled from the spec: `C4Account` (from the missing `src/stack.py`)
describes the target deployment context (account identifier); it is supplied
by an external collaborator and read-only to this core, so it is embedded as
an opaque record of its identifier. -/
structure C4Account where
  account_number : String
deriving DecidableEq, BEq, Repr

/-- The Part classes referenced by `src/stacks/trial.py`
(`network.C4Network`, `datastore.C4Datastore`, `beanstalk.C4Beanstalk`,
`tibanna.C4Tibanna`, `ecr.C4ContainerRegistry`).  The trial module only ever
places these classes into a `parts` list, so they are embedded as an
enumeration. -/
inductive C4PartClass where
  | C4Network
  | C4Datastore
  | C4Beanstalk
  | C4Tibanna
  | C4ContainerRegistry
deriving DecidableEq, BEq, Repr

/-- Modelled from the spec: `C4Stack` (from the missing `src/stack.py`)
aggregates an ordered list of Parts plus stack-level metadata (name, tags,
target account, description); `src/stacks/trial.py` constructs it with
exactly these keyword fields. -/
structure C4Stack where
  name : C4Name
  tags : C4Tags
  account : C4Account
  parts : List C4PartClass
  description : String
deriving DecidableEq, BEq, Repr

/-- Modelled from the spec: `C4FoursightCGAPStack` (from the missing
`src/stack.py`) is the serverless-packaging variant whose `template()` is
replaced by a `package()` operation; per `docs/architecture.rst` it does not
use troposphere parts, and `src/stacks/trial.py` constructs it without a
`parts` argument, so it carries no parts list. -/
structure C4FoursightCGAPStack where
  name : C4Name
  tags : C4Tags
  account : C4Account
  description : String
deriving DecidableEq, BEq, Repr

/-- Modelled from the spec: `COMMON_STACK_PREFIX` (from the missing
`src/base.py`).  Its value `"c4-"` is fixed by the comment in
`src/stacks/trial.py` (`if name='network', result will be c4-network-trial`)
and by the spec's example. -/
def COMMON_STACK_PREFIX : String := "c4-"

/-- `c4_stack_trial_name` from `src/stacks/trial.py`: builds the
`C4Name` from the f-string `f'{COMMON_STACK_PREFIX}{name}-trial'`. -/
def c4_stack_trial_name (name : String) : C4Name :=
  C4Name.mk ( COMMON_STACK_PREFIX ++ name ++ "-trial")

/-- `c4_stack_trial_tags` from `src/stacks/trial.py`. -/
def c4_stack_trial_tags : C4Tags :=
  C4Tags.mk "dev" "cgap" "project"

/-- `c4_stack_trial_description` from `src/stacks/trial.py`: the format
string `'AWS CloudFormation CGAP {0} template: trial {0} setup for
cgap-portal environment'.format(stack)`, expanded. -/
def c4_stack_trial_description (stack : String) : String :=
  "AWS CloudFormation CGAP " ++ stack ++ " template: trial " ++ stack
    ++ " setup for cgap-portal environment"

/-- `c4_stack_trial_network_metadata` from `src/stacks/trial.py`: returns the
network trial stack name and description without compiling the stack. -/
def c4_stack_trial_network_metadata : C4Name × String :=
  let name := "network"
  (c4_stack_trial_name name, c4_stack_trial_description name)

/-- `c4_stack_trial_network` from `src/stacks/trial.py`
(registered under name='network', kind='legacy'). -/
def c4_stack_trial_network (account : C4Account) : C4Stack :=
  let parts := [C4PartClass.C4Network]
  let (name, description) := c4_stack_trial_network_metadata
  C4Stack.mk name c4_stack_trial_tags account parts description

/-- `c4_stack_trial_datastore` from `src/stacks/trial.py`
(registered under name='datastore', kind='legacy'). -/
def c4_stack_trial_datastore (account : C4Account) : C4Stack :=
  let name := "datastore"
  let parts := [C4PartClass.C4Datastore]
  let description := c4_stack_trial_description name
  C4Stack.mk (c4_stack_trial_name name) c4_stack_trial_tags account parts description

/-- `c4_stack_trial_beanstalk_meta` from `src/stacks/trial.py`. -/
def c4_stack_trial_beanstalk_meta : C4Name × String :=
  let short_name := "beanstalk"
  let name := c4_stack_trial_name short_name
  let description := c4_stack_trial_description short_name
  (name, description)

/-- `c4_stack_trial_beanstalk` from `src/stacks/trial.py`
(registered under name='beanstalk', kind='legacy'). -/
def c4_stack_trial_beanstalk (account : C4Account) : C4Stack :=
  let (name, description) := c4_stack_trial_beanstalk_meta
  let parts := [C4PartClass.C4Beanstalk]
  C4Stack.mk name c4_stack_trial_tags account parts description

/-- `c4_stack_trial_foursight_cgap` from `src/stacks/trial.py`
(registered under name='foursight', kind='legacy'); the only creator that
builds a `C4FoursightCGAPStack` and passes no `parts` argument. -/
def c4_stack_trial_foursight_cgap (account : C4Account) : C4FoursightCGAPStack :=
  let name := "foursight"
  let description := c4_stack_trial_description name
  C4FoursightCGAPStack.mk (c4_stack_trial_name name) c4_stack_trial_tags account description

/-- `c4_stack_trial_tibanna` from `src/stacks/trial.py`
(registered under name='tibanna', kind='legacy'). -/
def c4_stack_trial_tibanna (account : C4Account) : C4Stack :=
  let name := "tibanna"
  let description := "tibanna trial stack"
  let parts := [C4PartClass.C4Tibanna]
  C4Stack.mk (c4_stack_trial_name name) c4_stack_trial_tags account parts description

/-- `stack_trial_ecr` from `src/stacks/trial.py`
(registered under name='ecr', kind='legacy'). -/
def stack_trial_ecr (account : C4Account) : C4Stack :=
  let name := "ecr"
  let parts := [C4PartClass.C4ContainerRegistry]
  let description := c4_stack_trial_description name
  C4Stack.mk (c4_stack_trial_name name) c4_stack_trial_tags account parts description

/-- A stack value as produced by a registered creator: either a plain
`C4Stack` built from a parts list, or the serverless-packaging
`C4FoursightCGAPStack` variant. -/
inductive StackValue where
  | stack : C4Stack → StackValue
  | foursightCGAP : C4FoursightCGAPStack → StackValue
deriving BEq, Repr

/-- Modelled from the spec: the error raised by the stack resolver (from the
missing `src/base.py` / `src/exceptions.py`) when no creator is registered
for a requested (name, kind) pair. -/
inductive StackResolutionError where
  | unknownStack
deriving DecidableEq, BEq, Repr

/-- Modelled from the spec: the registry built by the
`@register_stack_creator(name=..., kind=...)` decorations of
`src/stacks/trial.py`, in source order.  `register_stack_creator` (from the
missing `src/base.py`) associates a short stack name and a kind with an
assembly function; importing `src/stacks/trial.py` registers exactly these
six creators, all under kind='legacy'. -/
def trialStackRegistry : List ((String × String) × (C4Account → StackValue)) :=
  [ (("network", "legacy"), fun a => StackValue.stack (c4_stack_trial_network a)),
    (("datastore", "legacy"), fun a => StackValue.stack (c4_stack_trial_datastore a)),
    (("beanstalk", "legacy"), fun a => StackValue.stack (c4_stack_trial_beanstalk a)),
    (("foursight", "legacy"), fun a => StackValue.foursightCGAP (c4_stack_trial_foursight_cgap a)),
    (("tibanna", "legacy"), fun a => StackValue.stack (c4_stack_trial_tibanna a)),
    (("ecr", "legacy"), fun a => StackValue.stack (stack_trial_ecr a)) ]

/-- Modelled from the spec: `resolve(name, kind, account) -> Stack` (from the
missing `src/base.py`): exact-match lookup on the (name, kind) pair in the
registry, failing with `UnknownStackError` when no creator is registered for
that pair; resolution is never fuzzy and never falls back to another kind. -/
def resolveStack (name kind : String) (account : C4Account) :
    Except StackResolutionError StackValue :=
  match trialStackRegistry.find? (fun e => e.1 == (name, kind)) with
  | some e => Except.ok (e.2 account)
  | none => Except.error StackResolutionError.unknownStack

/-- The name field of a produced stack value, for either variant. -/
def stackNameOf : StackValue → C4Name
  | StackValue.stack s => s.name
  | StackValue.foursightCGAP s => s.name

/-- The tags field of a produced stack value, for either variant. -/
def stackTagsOf : StackValue → C4Tags
  | StackValue.stack s => s.tags
  | StackValue.foursightCGAP s => s.tags

/-- Whether a produced stack value is the serverless-packaging
`C4FoursightCGAPStack` variant. -/
def isFoursightVariant : StackValue → Bool
  | StackValue.stack _ => false
  | StackValue.foursightCGAP _ => true

/-- The parts list of a produced stack value: `some` for a plain `C4Stack`,
`none` for the `C4FoursightCGAPStack` variant, which is constructed without
a parts argument. -/
def stackPartsOf : StackValue → Option (List C4PartClass)
  | StackValue.stack s => some s.parts
  | StackValue.foursightCGAP _ => none

/-- Modelled from the spec: the non-emptiness validation that `assemble`
(from the missing `src/stack.py`) applies to the supplied Parts list —
`assemble` validates that the supplied Parts list is non-empty. -/
def assemblePartsNonEmptyCheck (parts : List C4PartClass) : Bool :=
  !parts.isEmpty

/-- Modelled from the spec: the error raised by the export registry (from the
missing `src/exports.py`) when the same (stack, output_key) pair is
registered a second time with a different value. -/
inductive ExportRegistryError where
  | exportConflict
deriving DecidableEq, BEq, Repr

/-- An export registry state: an association from (stack name, output key)
pairs to value references, accumulated during one composition pass. -/
abbrev ExportRegistry : Type :=
  List ((String × String) × String)

/-- Modelled from the spec: the value registered for a (stack_name,
output_key) pair, if any. -/
def findExport (reg : ExportRegistry) (stack_name output_key : String) : Option String :=
  (reg.find? (fun e => e.1 == (stack_name, output_key))).map (fun e => e.2)

/-- Modelled from the spec: `register(stack_name, output_key, value_ref)`
(from the missing `src/exports.py`): a first registration for a pair records
it; a second registration for the same pair is a no-op only if the value_ref
is identical, otherwise it fails with `ExportConflictError`. -/
def registerExport (reg : ExportRegistry) (stack_name output_key value_ref : String) :
    Except ExportRegistryError ExportRegistry :=
  match reg.find? (fun e => e.1 == (stack_name, output_key)) with
  | none => Except.ok (reg ++ [((stack_name, output_key), value_ref)])
  | some e =>
      if e.2 == value_ref then Except.ok reg
      else Except.error ExportRegistryError.exportConflict

/-- Claim C1: name derivation is a pure function with a fixed reference
definition: for every token string `name`, `c4_stack_trial_name name` is the
`C4Name` built from exactly ` COMMON_STACK_PREFIX ++ name ++ "-trial"`
(e.g. `"c4-network-trial"` for `"network"`), and calling it twice with the
same token yields equal results (it is a pure Lean function, so it consults
no I/O, randomness, or clock). -/
theorem c4_stack_trial_name_pure_reference (name : String) :
    c4_stack_trial_name name = C4Name.mk ( COMMON_STACK_PREFIX ++ name ++ "-trial") ∧
    c4_stack_trial_name "network" = C4Name.mk "c4-network-trial" ∧
    c4_stack_trial_name name = c4_stack_trial_name name :=
  ⟨rfl, rfl, rfl⟩

/-- Claim C2: round-trip determinism of stack construction: invoking the same
registered stack-creator function twice with the same account produces
structurally identical stacks (hence equal name, tags, description, and
parts list), for each of the six registered creators. -/
theorem trial_stack_creators_deterministic (a₁ a₂ : C4Account) (h : a₁ = a₂) :
    c4_stack_trial_network a₁ = c4_stack_trial_network a₂ ∧
    c4_stack_trial_datastore a₁ = c4_stack_trial_datastore a₂ ∧
    c4_stack_trial_beanstalk a₁ = c4_stack_trial_beanstalk a₂ ∧
    c4_stack_trial_foursight_cgap a₁ = c4_stack_trial_foursight_cgap a₂ ∧
    c4_stack_trial_tibanna a₁ = c4_stack_trial_tibanna a₂ ∧
    stack_trial_ecr a₁ = stack_trial_ecr a₂ := by
  subst h
  exact ⟨rfl, rfl, rfl, rfl, rfl, rfl⟩

/-- Witness for claim C2 at a concrete account. -/
theorem trial_stack_creators_deterministic_witness :
    c4_stack_trial_network (C4Account.mk "111111111111")
      = c4_stack_trial_network (C4Account.mk "111111111111") ∧
    c4_stack_trial_datastore (C4Account.mk "111111111111")
      = c4_stack_trial_datastore (C4Account.mk "111111111111") ∧
    c4_stack_trial_beanstalk (C4Account.mk "111111111111")
      = c4_stack_trial_beanstalk (C4Account.mk "111111111111") ∧
    c4_stack_trial_foursight_cgap (C4Account.mk "111111111111")
      = c4_stack_trial_foursight_cgap (C4Account.mk "111111111111") ∧
    c4_stack_trial_tibanna (C4Account.mk "111111111111")
      = c4_stack_trial_tibanna (C4Account.mk "111111111111") ∧
    stack_trial_ecr (C4Account.mk "111111111111")
      = stack_trial_ecr (C4Account.mk "111111111111") :=
  trial_stack_creators_deterministic (C4Account.mk "111111111111") (C4Account.mk "111111111111") rfl

/-- Claim C3: stack resolution is exact-match on the (name, kind) pair:
resolving a pair for which no creator was registered fails with
`UnknownStackError` and never falls back to a creator registered under the
other kind; in particular, 'datastore' is registered only under
kind='legacy', so requesting it under kind='current' fails rather than
substituting the legacy creator. -/
theorem resolveStack_exact_match_unknown (name kind : String) (a : C4Account)
    (h : ∀ e ∈ trialStackRegistry, e.1 ≠ (name, kind)) :
    resolveStack name kind a = Except.error StackResolutionError.unknownStack ∧
    resolveStack "datastore" "current" a = Except.error StackResolutionError.unknownStack := by
  refine ⟨?_, rfl⟩
  unfold resolveStack
  have hnone : trialStackRegistry.find? (fun e => e.1 == (name, kind)) = none := by
    rw [List.find?_eq_none]
    intro e he
    simpa using h e he
  rw [hnone]

/-- Witness for claim C3: the pair ('datastore', 'current') is registered
nowhere, and resolving it at a concrete account fails. -/
theorem resolveStack_exact_match_unknown_witness :
    resolveStack "datastore" "current" (C4Account.mk "111111111111")
      = Except.error StackResolutionError.unknownStack :=
  (resolveStack_exact_match_unknown "datastore" "current" (C4Account.mk "111111111111")
    (by decide)).1

/-- Claim C4: the legacy partition of the stack registry contains exactly six
entries — 'network', 'datastore', 'beanstalk', 'foursight', 'tibanna', 'ecr',
each registered exactly once, all under kind='legacy' — and for every account
each creator returns a stack whose name is derived as
`"c4-" ++ name ++ "-trial"` from its registered token. -/
theorem legacy_registry_six_entries (a : C4Account) :
    trialStackRegistry.map Prod.fst =
      [("network", "legacy"), ("datastore", "legacy"), ("beanstalk", "legacy"),
       ("foursight", "legacy"), ("tibanna", "legacy"), ("ecr", "legacy")] ∧
    (trialStackRegistry.map Prod.fst).Nodup ∧
    trialStackRegistry.all
      (fun e => stackNameOf (e.2 a) == C4Name.mk ("c4-" ++ e.1.1 ++ "-trial")) = true :=
  ⟨rfl, by decide, rfl⟩

/-- Claim C5: derived naming is collision-free: distinct token strings yield
distinct stack names, because ` COMMON_STACK_PREFIX ++ token ++ "-trial"` is
injective over the token. -/
theorem c4_stack_trial_name_injective (n₁ n₂ : String) (h : n₁ ≠ n₂) :
    c4_stack_trial_name n₁ ≠ c4_stack_trial_name n₂ := by
  intro heq
  apply h
  have hs : ( COMMON_STACK_PREFIX ++ n₁ ++ "-trial") = ( COMMON_STACK_PREFIX ++ n₂ ++ "-trial") :=
    congrArg C4Name.name heq
  have hd := congrArg String.data hs
  simp only [String.data_append, List.append_assoc] at hd
  exact String.ext (List.append_cancel_right (List.append_cancel_left hd))

/-- Witness for claim C5 at the concrete distinct tokens 'network' and
'datastore'. -/
theorem c4_stack_trial_name_injective_witness :
    c4_stack_trial_name "network" ≠ c4_stack_trial_name "datastore" :=
  c4_stack_trial_name_injective "network" "datastore" (by decide)

/-- Claim C6: the serverless-packaging variant is the sole exception to the
Parts-based contract: among the six legacy creators, exactly the 'foursight'
entry produces the `C4FoursightCGAPStack` variant (whose `template()` is
replaced by `package()`), and it is the only one constructed without a parts
argument; every other entry produces a plain `C4Stack` carrying a parts
list. -/
theorem foursight_sole_packaging_variant (a : C4Account) :
    trialStackRegistry.all
      (fun e => (isFoursightVariant (e.2 a) == (e.1.1 == "foursight")) &&
                ((stackPartsOf (e.2 a)).isNone == (e.1.1 == "foursight"))) = true :=
  rfl

/-- Claim C7: every plain `C4Stack` constructed by a creator registered in
the legacy registry is passed a non-empty parts list — in every case a
singleton — so the empty-parts validation branch of `assemble` (modelled by
`assemblePartsNonEmptyCheck`) is unreachable from these creators. -/
theorem legacy_creators_parts_nonempty (a : C4Account) :
    trialStackRegistry.all
      (fun e =>
        match stackPartsOf (e.2 a) with
        | some parts => (parts.length == 1) && assemblePartsNonEmptyCheck parts
        | none => true) = true :=
  rfl

/-- Claim C8: export registration is idempotent only on identical values:
when a (stack_name, output_key) pair is already registered with value_ref,
registering the identical value_ref again succeeds as a no-op leaving the
registry unchanged, while registering any different value fails with
`ExportConflictError`. -/
theorem registerExport_noop_or_conflict (reg : ExportRegistry)
    (stack_name output_key value_ref : String)
    (h : findExport reg stack_name output_key = some value_ref) :
    registerExport reg stack_name output_key value_ref = Except.ok reg ∧
    ∀ v', v' ≠ value_ref →
      registerExport reg stack_name output_key v'
        = Except.error ExportRegistryError.exportConflict := by
  unfold findExport at h
  cases hf : reg.find? (fun e => e.1 == (stack_name, output_key)) with
  | none => rw [hf] at h; simp at h
  | some e =>
    rw [hf] at h
    simp only [Option.map] at h
    injection h with h2
    constructor
    · unfold registerExport
      rw [hf]
      simp [h2]
    · intro v' hne
      unfold registerExport
      rw [hf]
      have he : (e.2 == v') = false := by
        rw [h2]
        exact beq_eq_false_iff_ne.mpr (fun hv => hne hv.symm)
      simp [he]

/-- Witness for claim C8 on a concrete one-entry registry. -/
theorem registerExport_noop_or_conflict_witness :
    registerExport [(("network", "VPCExport"), "vpc-ref")] "network" "VPCExport" "vpc-ref"
      = Except.ok [(("network", "VPCExport"), "vpc-ref")] ∧
    registerExport [(("network", "VPCExport"), "vpc-ref")] "network" "VPCExport" "other-ref"
      = Except.error ExportRegistryError.exportConflict :=
  ⟨(registerExport_noop_or_conflict [(("network", "VPCExport"), "vpc-ref")]
      "network" "VPCExport" "vpc-ref" rfl).1,
   (registerExport_noop_or_conflict [(("network", "VPCExport"), "vpc-ref")]
      "network" "VPCExport" "vpc-ref" rfl).2 "other-ref" (by decide)⟩

/-- Claim C9: uniform-tags invariant: every stack constructed by any of the
six legacy creators carries the identical tag set
`C4Tags(env='dev', project='cgap', owner='project')`. -/
theorem legacy_creators_uniform_tags (a : C4Account) :
    trialStackRegistry.all
      (fun e => stackTagsOf (e.2 a) == C4Tags.mk "dev" "cgap" "project") = true :=
  rfl

/-- Claim C10: the metadata helper functions agree with the stacks they
describe: `c4_stack_trial_network_metadata` returns exactly the name and
description that `c4_stack_trial_network` embeds in the stack it constructs,
and `c4_stack_trial_beanstalk_meta` likewise agrees with
`c4_stack_trial_beanstalk`, for every account. -/
theorem metadata_helpers_agree (a : C4Account) :
    (c4_stack_trial_network a).name = c4_stack_trial_network_metadata.1 ∧
    (c4_stack_trial_network a).description = c4_stack_trial_network_metadata.2 ∧
    (c4_stack_trial_beanstalk a).name = c4_stack_trial_beanstalk_meta.1 ∧
    (c4_stack_trial_beanstalk a).description = c4_stack_trial_beanstalk_meta.2 :=
  ⟨rfl, rfl, rfl, rfl⟩
